import Mathlib

/-!
Verification of the natural-language specification of the
`cpp-utilities` repository against its code, for the two components the
claims concern:

* `src/thread_queue/thread_queue.hpp` — the `util::thread_queue` class
  and its nested `fifo_queue`;
* `src/fff/fff.cpp` — the multithreaded breadth-first filesystem search.

The C++ is shallowly embedded: the singly-linked `fifo_queue` becomes a
Lean structure holding the node chain as a `List` together with the
`size_t` counter (`size_t` arithmetic is `Nat` taken modulo `2 ^ 64`);
the concurrent `thread_queue` becomes a labelled transition system whose
atomic steps are the lock-protected regions of the source (plus the two
source actions that run outside any lock: the worker's counter decrement
and its call to `_start_next_job`); the functions of `fff.cpp` become
pure Lean functions parameterised over the filesystem (`isDir`,
`children`) and the compiled regular expression (`pattern : String →
Bool`), both of which are external to the repository.
-/

/-! ## fifo_queue (src/thread_queue/thread_queue.hpp, lines 33-140) -/

/-- The modulus of `size_t` arithmetic (64-bit). -/
def sizeTMod : Nat := 2 ^ 64

/-- Embedding of `util::thread_queue::fifo_queue<item_t>`: `items` is the
node chain hanging off `_first` (head = `_first`), `queue_size` is the
`_queue_size` member (a `size_t`, kept below `2 ^ 64` by construction). -/
structure fifo_queue (α : Type) where
  items : List α
  queue_size : Nat
deriving DecidableEq

namespace fifo_queue

/-- A default-constructed `fifo_queue`: no nodes, `_queue_size {0}`. -/
def init (α : Type) : fifo_queue α := ⟨[], 0⟩

/-- Embedding of `push` (lines 94-104): `if (_queue_size++ == 0)` installs
a fresh single node as `_first`, otherwise appends at `_last`. -/
def push (s : fifo_queue α) (item : α) : fifo_queue α :=
  if s.queue_size = 0 then ⟨[item], (s.queue_size + 1) % sizeTMod⟩
  else ⟨s.items ++ [item], (s.queue_size + 1) % sizeTMod⟩

/-- Embedding of `pop` (lines 111-118): `if (_queue_size-- == 0) throw`
tests the old value of the counter but decrements it in every case, so on
an empty queue the `size_t` wraps to `2 ^ 64 - 1` while the node chain is
left untouched; on a nonempty queue the head node is removed and its item
returned.  The thrown exception is modelled as a `none` result; the
mutated object is returned alongside. -/
def pop (s : fifo_queue α) : Option α × fifo_queue α :=
  let newSize := (s.queue_size + sizeTMod - 1) % sizeTMod
  if s.queue_size = 0 then (none, ⟨s.items, newSize⟩)
  else (s.items.head?, ⟨s.items.tail, newSize⟩)

/-- Embedding of `peek` (line 125): `return _first->item` dereferences the
head pointer with no emptiness check; the null dereference on an empty
chain is the `none` branch of `head?`. -/
def peek (s : fifo_queue α) : Option α := s.items.head?

/-- Embedding of `size` (line 132). -/
def size (s : fifo_queue α) : Nat := s.queue_size

/-- Embedding of `empty` (line 139). -/
def empty (s : fifo_queue α) : Bool := s.queue_size == 0

/-- Well-formedness: the `_queue_size` counter agrees with the length of
the node chain.  This holds for every queue built by `push`/successful
`pop` from a default-constructed queue. -/
def wf (s : fifo_queue α) : Prop := s.queue_size = s.items.length

end fifo_queue

lemma sizeTMod_big : 4 < sizeTMod := by norm_num [sizeTMod]

/-- Computation rule for `push` on a queue whose counter reads `0`. -/
lemma fifo_queue.push_zero (l : List α) (x : α) :
    (fifo_queue.mk l 0).push x = ⟨[x], 1⟩ := by
  unfold fifo_queue.push
  simp only [if_pos rfl]
  have h1 : (0 + 1) % sizeTMod = 1 :=
    Nat.mod_eq_of_lt (by have := sizeTMod_big; omega)
  rw [h1]
  simp

/-- Computation rule for `push` on a queue whose counter reads a nonzero
value below the `size_t` bound. -/
lemma fifo_queue.push_succ (l : List α) (x : α) (n : Nat) (hn : n ≠ 0)
    (h : n + 1 < sizeTMod) :
    (fifo_queue.mk l n).push x = ⟨l ++ [x], n + 1⟩ := by
  unfold fifo_queue.push
  rw [if_neg hn, Nat.mod_eq_of_lt h]

/-- Computation rule for `pop` on a queue whose counter reads `0`: the
error branch fires but the post-decrement still wraps the counter. -/
lemma fifo_queue.pop_zero (l : List α) :
    (fifo_queue.mk l 0).pop = (none, ⟨l, sizeTMod - 1⟩) := by
  unfold fifo_queue.pop
  simp only [if_pos rfl]
  have h1 : (0 + sizeTMod - 1) % sizeTMod = sizeTMod - 1 :=
    Nat.mod_eq_of_lt (by have := sizeTMod_big; omega)
  rw [h1]
  simp

/-- Computation rule for `pop` on a queue whose counter reads a nonzero
value below the `size_t` bound. -/
lemma fifo_queue.pop_succ (l : List α) (n : Nat) (hn : n ≠ 0)
    (h : n < sizeTMod) :
    (fifo_queue.mk l n).pop = (l.head?, ⟨l.tail, n - 1⟩) := by
  unfold fifo_queue.pop
  rw [if_neg hn]
  have h1 : (n + sizeTMod - 1) % sizeTMod = n - 1 := by
    have h2 : n + sizeTMod - 1 = sizeTMod + (n - 1) := by omega
    rw [h2, Nat.add_mod_left]
    exact Nat.mod_eq_of_lt (by omega)
  rw [h1]

/-- C9: the job queue is FIFO — from a freshly constructed queue, after
`push a; push b; push c` with no interleaved pops, three successive
`pop()` calls return `a`, then `b`, then `c`. -/
theorem fifo_queue_fifo_order (α : Type) (a b c : α) :
    ((((fifo_queue.init α).push a).push b).push c).pop.1 = some a ∧
    (((((fifo_queue.init α).push a).push b).push c).pop.2.pop.1 = some b ∧
      ((((fifo_queue.init α).push a).push b).push c).pop.2.pop.2.pop.1
        = some c) := by
  have big := sizeTMod_big
  rw [show fifo_queue.init α = ⟨[], 0⟩ from rfl,
    fifo_queue.push_zero,
    fifo_queue.push_succ _ _ 1 (by omega) (by omega),
    fifo_queue.push_succ _ _ 2 (by omega) (by omega),
    fifo_queue.pop_succ _ 3 (by omega) (by omega)]
  simp only [List.head?, List.tail]
  rw [fifo_queue.pop_succ _ 2 (by omega) (by omega)]
  simp only [List.head?, List.tail]
  rw [fifo_queue.pop_succ _ 1 (by omega) (by omega)]
  simp

/-- C5: `pop()` on an empty queue reports the error (the throw, modelled
as `none`) but does **not** leave the queue state unchanged: the
post-decrement `_queue_size--` wraps the `size_t` counter from `0` to
`2 ^ 64 - 1`, so afterwards `size()` reports `2 ^ 64 - 1` and `empty()`
reports `false` even though the node chain is still empty; in particular
`size()` no longer equals the number of pushes minus the number of
successful pops (both zero here). -/
theorem fifo_queue_pop_empty_corrupts :
    (fifo_queue.init Nat).pop.1 = none ∧
    (fifo_queue.init Nat).pop.2.items = [] ∧
    (fifo_queue.init Nat).pop.2.size = 2 ^ 64 - 1 ∧
    (fifo_queue.init Nat).pop.2.empty = false ∧
    (fifo_queue.init Nat).pop.2.size ≠ 0 := by
  have big := sizeTMod_big
  rw [show fifo_queue.init Nat = ⟨[], 0⟩ from rfl, fifo_queue.pop_zero]
  refine ⟨rfl, rfl, rfl, ?_, ?_⟩
  · show (sizeTMod - 1 == 0) = false
    simp only [beq_eq_false_iff_ne, ne_eq]
    omega
  · show sizeTMod - 1 ≠ 0
    omega

/-- C10: `peek()` carries the implicit precondition that the queue is
nonempty: on any well-formed queue, the null-dereference branch (`none`)
is reached exactly when the queue is empty, i.e. it is unreachable
exactly under the nonemptiness precondition. -/
theorem fifo_queue_peek_none_iff_empty (α : Type) (s : fifo_queue α)
    (h : s.wf) : s.peek = none ↔ s.empty = true := by
  unfold fifo_queue.peek fifo_queue.empty
  unfold fifo_queue.wf at h
  cases hi : s.items with
  | nil => simp [hi] at h; simp [h]
  | cons x xs =>
    rw [hi] at h
    simp [h]

/-- Witness for C10's theorem at the concrete empty queue: `peek` of a
default-constructed queue is the error branch and `empty` is `true`. -/
theorem fifo_queue_peek_none_iff_empty_witness :
    (fifo_queue.init Nat).peek = none ↔ (fifo_queue.init Nat).empty = true :=
  fifo_queue_peek_none_iff_empty Nat (fifo_queue.init Nat) rfl

/-! ## thread_queue (src/thread_queue/thread_queue.hpp, lines 26-295)

The dispatcher is embedded as a labelled transition system.  One step is
one atomic region of the source: each lock-protected section
(`_start_all_jobs`' whole loop, `_start_next_job`, the flag assignment in
`start`) is a single step, while the two actions a worker performs
outside any lock — the counter decrement `--_current_num_threads` and the
subsequent call to `_start_next_job` (lines 192-196) — are separate
steps, so that the interleavings the real threads admit are present in
the model.  Jobs are counted, not named: `queued` is the length of
`_jobs`, `running` counts workers currently inside a job body, `postBody`
counts workers whose body returned but whose decrement has not executed
yet, `postDec` counts workers past the decrement but still to call
`_start_next_job`, `fillPending` counts issued-but-not-yet-run calls of
`_start_all_jobs`, and `submitted`/`doneCount` accumulate pushes and
completed job bodies.  The member `_current_num_threads` is the derived
quantity `running + postBody`: it is incremented exactly when a worker is
spawned (under `_lock`, lines 209-211 and 222-224) and decremented
exactly at the post-body decrement. -/

structure tq_state where
  allow_new_jobs : Bool
  auto_start : Bool
  queued : Nat
  running : Nat
  postBody : Nat
  postDec : Nat
  fillPending : Nat
  submitted : Nat
  doneCount : Nat
deriving DecidableEq

/-- The `_current_num_threads` member: incremented with each spawned
worker, decremented by each worker right after its job body returns. -/
def current_num_threads (s : tq_state) : Nat := s.running + s.postBody

/-- A freshly constructed `thread_queue(num_threads, auto_start)`:
`_current_num_threads {0}`, `_allow_new_jobs {true}`, empty `_jobs`. -/
def tq_init (auto_start : Bool) : tq_state :=
  ⟨true, auto_start, 0, 0, 0, 0, 0, 0, 0⟩

/-- Effect of `add_job` (lines 259-263): guard `_allow_new_jobs`, push
the job, and if `_auto_start` is set, issue a call to
`_start_all_jobs`. -/
def do_add_job (s : tq_state) : tq_state :=
  { s with queued := s.queued + 1, submitted := s.submitted + 1,
           fillPending :=
             if s.auto_start then s.fillPending + 1 else s.fillPending }

/-- Number of iterations of the loop in `_start_all_jobs` (lines
221-225): jobs are popped and workers spawned while
`_current_num_threads < _num_threads` and the queue is nonempty. -/
def fill_count (limit : Nat) (s : tq_state) : Nat :=
  min (limit - current_num_threads s) s.queued

/-- Effect of one entire execution of `_start_all_jobs` (lines 219-227),
which runs under `_lock`. -/
def do_start_all (limit : Nat) (s : tq_state) : tq_state :=
  { s with fillPending := s.fillPending - 1,
           running := s.running + fill_count limit s,
           queued := s.queued - fill_count limit s }

/-- Effect of the flag assignment in `start` (lines 269-280) when the
queue was not yet auto-starting: set `_auto_start` and issue a call to
`_start_all_jobs`. -/
def do_start_call (s : tq_state) : tq_state :=
  { s with auto_start := true, fillPending := s.fillPending + 1 }

/-- A worker's job body returns (line 193 completes). -/
def do_body_done (s : tq_state) : tq_state :=
  { s with running := s.running - 1, postBody := s.postBody + 1,
           doneCount := s.doneCount + 1 }

/-- A worker executes `--_current_num_threads` (line 194) — outside any
lock. -/
def do_decrement (s : tq_state) : tq_state :=
  { s with postBody := s.postBody - 1, postDec := s.postDec + 1 }

/-- A worker executes `_start_next_job` (lines 203-213): under `_lock`,
if the queue is nonempty it pops a job and spawns a worker for it with no
check of `_num_threads`. -/
def do_start_next (s : tq_state) : tq_state :=
  if s.queued = 0 then { s with postDec := s.postDec - 1 }
  else { s with postDec := s.postDec - 1, queued := s.queued - 1,
                running := s.running + 1 }

/-- One atomic step of the dispatcher with concurrency limit `limit`
(`_num_threads`). -/
inductive tq_step (limit : Nat) : tq_state → tq_state → Prop where
  | add_job (s : tq_state) : s.allow_new_jobs = true →
      tq_step limit s (do_add_job s)
  | start_all (s : tq_state) : 1 ≤ s.fillPending →
      tq_step limit s (do_start_all limit s)
  | start_call (s : tq_state) : s.auto_start = false →
      tq_step limit s (do_start_call s)
  | body_done (s : tq_state) : 1 ≤ s.running →
      tq_step limit s (do_body_done s)
  | decrement (s : tq_state) : 1 ≤ s.postBody →
      tq_step limit s (do_decrement s)
  | start_next (s : tq_state) : 1 ≤ s.postDec →
      tq_step limit s (do_start_next s)

/-- The states a dispatcher can reach from a given state. -/
def tq_reachable (limit : Nat) (a b : tq_state) : Prop :=
  Relation.ReflTransGen (tq_step limit) a b

/-- One step preserves the job accounting equation. -/
lemma tq_step_accounting {limit : Nat} {a b : tq_state}
    (st : tq_step limit a b)
    (ih : a.submitted = a.queued + a.running + a.doneCount) :
    b.submitted = b.queued + b.running + b.doneCount := by
  cases st with
  | add_job ht => simp only [do_add_job]; omega
  | start_all ht =>
    have hf : fill_count limit a ≤ a.queued := Nat.min_le_right _ _
    simp only [do_start_all]; omega
  | start_call ht => simpa only [do_start_call] using ih
  | body_done ht => simp only [do_body_done]; omega
  | decrement ht => simpa only [do_decrement] using ih
  | start_next ht =>
    simp only [do_start_next]
    by_cases hq : a.queued = 0
    · simpa only [if_pos hq] using ih
    · simp only [if_neg hq]; omega

/-- Job accounting invariant: every pushed job is still queued, inside a
running body, or has completed its body. -/
lemma tq_accounting (limit : Nat) (b : Bool) (s : tq_state)
    (h : tq_reachable limit (tq_init b) s) :
    s.submitted = s.queued + s.running + s.doneCount := by
  induction h with
  | refl => rfl
  | tail h' st ih => exact tq_step_accounting st ih

/-- C4: teardown correctness of the destructor (lines 243-252).  The
destructor busy-waits until it observes `_jobs` empty and
`_current_num_threads == 0` in the same loop-condition evaluation; in any
reachable state in which that observed condition holds, the number of
completed job bodies equals the number of submitted jobs, so every
submitted job has executed by the time teardown completes and no job is
abandoned mid-flight. -/
theorem tq_destructor_drains (limit : Nat) (b : Bool) (s : tq_state)
    (h : tq_reachable limit (tq_init b) s)
    (hq : s.queued = 0) (hc : current_num_threads s = 0) :
    s.doneCount = s.submitted := by
  have acc := tq_accounting limit b s h
  unfold current_num_threads at hc
  omega

/-- Witness for C4's theorem: a dispatcher with limit `1` runs one
submitted job to completion (submit, fill a slot, body returns, counter
decrement, final `_start_next_job` finds the queue empty); in the
resulting quiescent state the theorem yields `doneCount = submitted`. -/
theorem tq_destructor_drains_witness :
    (tq_state.mk true true 0 0 0 0 0 1 1).doneCount
      = (tq_state.mk true true 0 0 0 0 0 1 1).submitted :=
  tq_destructor_drains 1 true ⟨true, true, 0, 0, 0, 0, 0, 1, 1⟩
    (Relation.ReflTransGen.tail
      (Relation.ReflTransGen.tail
        (Relation.ReflTransGen.tail
          (Relation.ReflTransGen.tail
            (Relation.ReflTransGen.tail
              Relation.ReflTransGen.refl
              (tq_step.add_job (tq_init true) rfl))
            (tq_step.start_all (do_add_job (tq_init true)) (by decide)))
          (tq_step.body_done
            (do_start_all 1 (do_add_job (tq_init true))) (by decide)))
        (tq_step.decrement
          (do_body_done (do_start_all 1 (do_add_job (tq_init true))))
          (by decide)))
      (tq_step.start_next
        (do_decrement
          (do_body_done (do_start_all 1 (do_add_job (tq_init true)))))
        (by decide)))
    rfl rfl

/-- C6: the dispatcher is never actually closed to new jobs.  The
`_allow_new_jobs` flag that `add_job` (line 260) consults is initialised
`true` (line 171) and no operation of the class ever assigns it `false`,
so in every reachable state submissions are still accepted; moreover
`add_job` returns `void`, so even the guard's "rejection" branch reports
nothing to the caller. -/
theorem tq_never_closed (limit : Nat) (b : Bool) (s : tq_state)
    (h : tq_reachable limit (tq_init b) s) : s.allow_new_jobs = true := by
  have step_pres : ∀ {x y : tq_state}, tq_step limit x y →
      x.allow_new_jobs = true → y.allow_new_jobs = true := by
    intro x y st ih
    cases st with
    | add_job ht => simpa only [do_add_job] using ih
    | start_all ht => simpa only [do_start_all] using ih
    | start_call ht => simpa only [do_start_call] using ih
    | body_done ht => simpa only [do_body_done] using ih
    | decrement ht => simpa only [do_decrement] using ih
    | start_next ht =>
      simp only [do_start_next]
      by_cases hq : x.queued = 0
      · simpa only [if_pos hq] using ih
      · simpa only [if_neg hq] using ih
  induction h with
  | refl => rfl
  | tail h' st ih => exact step_pres st ih

/-- Witness for C6's theorem: after one submission to a fresh dispatcher
the admission flag still reads `true`. -/
theorem tq_never_closed_witness :
    (do_add_job (tq_init true)).allow_new_jobs = true :=
  tq_never_closed 1 true (do_add_job (tq_init true))
    (Relation.ReflTransGen.tail Relation.ReflTransGen.refl
      (tq_step.add_job (tq_init true) rfl))

/-- The state exhibiting C3's violation: three jobs were submitted to a
dispatcher with `_num_threads = 1` and two workers are executing job
bodies at once, so `_current_num_threads = 2`. -/
def tq_bad_state : tq_state := ⟨true, true, 0, 2, 0, 0, 0, 3, 1⟩

/-- C3: the bounded-concurrency invariant `_current_num_threads ≤
_num_threads` is violated on a reachable interleaving.  With limit `1`:
job 1 is submitted and started; its body returns and the worker performs
the unlocked decrement `--_current_num_threads`; before that worker's
`_start_next_job` runs, the producer submits job 2 (which
`_start_all_jobs` starts, the slot being free) and then job 3 (which
stays queued, the slot being taken); the first worker's
`_start_next_job` then pops job 3 and spawns a worker for it without
re-checking the limit, leaving two jobs active under limit 1. -/
theorem tq_limit_violated :
    tq_reachable 1 (tq_init true) tq_bad_state ∧
    current_num_threads tq_bad_state = 2 ∧ 1 < current_num_threads tq_bad_state := by
  refine ⟨?_, rfl, by decide⟩
  have h1 : tq_step 1 (tq_init true) (do_add_job (tq_init true)) :=
    tq_step.add_job _ rfl
  exact
    Relation.ReflTransGen.tail
      (Relation.ReflTransGen.tail
        (Relation.ReflTransGen.tail
          (Relation.ReflTransGen.tail
            (Relation.ReflTransGen.tail
              (Relation.ReflTransGen.tail
                (Relation.ReflTransGen.tail
                  (Relation.ReflTransGen.tail
                    (Relation.ReflTransGen.tail
                      Relation.ReflTransGen.refl h1)
                    (tq_step.start_all _ (by decide)))
                  (tq_step.body_done _ (by decide)))
                (tq_step.decrement _ (by decide)))
              (tq_step.add_job _ (by decide)))
            (tq_step.start_all _ (by decide)))
          (tq_step.add_job _ (by decide)))
        (tq_step.start_all _ (by decide)))
      (tq_step.start_next _ (by decide))

/-! ## fff (src/fff/fff.cpp)

The search is embedded per worker step.  The filesystem is a parameter
(`isDir` classifies a path, `children` lists a directory's entries, both
external to the repository), as is the compiled `std::regex` (`pattern :
String → Bool`).  Standard output is the list of lines a call prints, in
order. -/

/-- Embedding of `struct place` (lines 46-71): a path and its depth in
the search space; roots are constructed with the default depth `0`. -/
structure place where
  path : String
  depth : Nat
deriving DecidableEq

/-- Embedding of `enum search_types` (line 77). -/
inductive search_types where
  | file
  | directory
  | any
deriving DecidableEq

/-- Embedding of `wild_to_regex` (lines 85-99): anchor with `^`/`$` and
turn each `*` into `.*`, copying every other character. -/
def wild_to_regex (pattern : String) : String :=
  "^" ++ String.join (pattern.toList.map
    (fun c => if c = '*' then ".*" else c.toString)) ++ "$"

/-- `std::filesystem::path(p).filename()` (lines 165-166): the component
after the last directory separator. -/
def pathFilename (s : String) : String :=
  String.mk ((s.data.reverse.takeWhile (fun c => c ≠ '/')).reverse)

/-- Result of one `examine_place` call: the standard-output lines it
prints (in order), and the updated places queue and `searched` set. -/
structure examine_result where
  out : List String
  queue : List place
  searched : List String
deriving DecidableEq

/-- Embedding of `examine_place` (lines 117-201), minus the final
thread-respawning block (lines 180-200), which belongs to the dispatch
loop rather than to the examination of one place.  Faithful to the
source order: print the path unconditionally (lines 124-126); if the
place is a directory below `max_depth`, enqueue each child that is not
yet in `searched` and insert it (lines 133-145); print `"1"` (lines
147-149); return if the depth is below `min_depth` (line 153); print
`"2"` (lines 155-157); return if the entry kind fails the type filter
(lines 160-162); print the path again if the short name matches the
pattern (lines 168-172).  The `filesystem_error` catch (lines 173-178)
is not modelled: the scenarios proved below raise no filesystem
errors. -/
def examine_place (isDir : String → Bool) (children : String → List String)
    (pattern : String → Bool) (search_type : search_types)
    (min_depth max_depth : Nat) (current_place : place)
    (places_queue : List place) (searched : List String) : examine_result :=
  let is_directory := isDir current_place.path
  let qs :=
    if is_directory = true ∧ current_place.depth < max_depth then
      (children current_place.path).foldl
        (fun (qs : List place × List String) entry =>
          if 0 < qs.2.count entry then qs
          else (qs.1 ++ [⟨entry, current_place.depth + 1⟩], qs.2 ++ [entry]))
        (places_queue, searched)
    else (places_queue, searched)
  let base := [current_place.path, "1"]
  if current_place.depth < min_depth then ⟨base, qs.1, qs.2⟩
  else
    let base := base ++ ["2"]
    if (is_directory = true ∧ search_type = search_types.file) ∨
        (¬is_directory = true ∧ search_type = search_types.directory) then
      ⟨base, qs.1, qs.2⟩
    else if pattern (pathFilename current_place.path) then
      ⟨base ++ [current_place.path], qs.1, qs.2⟩
    else ⟨base, qs.1, qs.2⟩

/-- The compiled pattern selected by `main`: which option supplied it and
the regular-expression text handed to `std::regex`. -/
inductive compiled_pattern where
  | matchAll
  | fromRegex (s : String)
  | fromIregex (s : String)
  | fromName (s : String)
  | fromIname (s : String)
deriving DecidableEq

/-- The four predicate options of the command line, each `some` value
when present (`args[opt] > 0`) carrying `args(opt)`. -/
structure pattern_args where
  regexArg : Option String
  iregexArg : Option String
  nameArg : Option String
  inameArg : Option String

/-- Embedding of the pattern-selection loop of `main` (lines 288-316):
`pattern` starts as match-everything and is reassigned once per present
option, iterating in the order `-regex`, `-iregex`, `-name`, `-iname`. -/
def select_pattern (a : pattern_args) : compiled_pattern :=
  let p := compiled_pattern.matchAll
  let p := match a.regexArg with
    | some s => compiled_pattern.fromRegex s
    | none => p
  let p := match a.iregexArg with
    | some s => compiled_pattern.fromIregex s
    | none => p
  let p := match a.nameArg with
    | some s => compiled_pattern.fromName (wild_to_regex s)
    | none => p
  match a.inameArg with
  | some s => compiled_pattern.fromIname (wild_to_regex s)
  | none => p

/-- Embedding of the root-seeding loop of `main` (lines 373-378): each
remaining non-option argument is pushed onto `places_queue`
unconditionally (no membership check) and inserted into `searched`
(a set insert: a no-op when already present). -/
def seed_roots (roots : List String) (places_queue : List place)
    (searched : List String) : List place × List String :=
  roots.foldl
    (fun (qs : List place × List String) r =>
      (qs.1 ++ [⟨r, 0⟩],
        if 0 < qs.2.count r then qs.2 else qs.2 ++ [r]))
    (places_queue, searched)

/-- The filesystem of C1's concrete scenario: `/tmp/root/a/x.txt` exists,
with `/tmp/root` and `/tmp/root/a` the directories on its path. -/
def fs1IsDir : String → Bool := fun s =>
  if s = "/tmp/root" then true else if s = "/tmp/root/a" then true else false

/-- Directory listing of C1's concrete scenario. -/
def fs1Children : String → List String := fun s =>
  if s = "/tmp/root" then ["/tmp/root/a"]
  else if s = "/tmp/root/a" then ["/tmp/root/a/x.txt"] else []

/-- A compiled predicate matching exactly the name `x.txt`. -/
def predXtxt : String → Bool := fun s => if s = "x.txt" then true else false

/-- C1: standard output does not carry one matched key per line.  In the
concrete scenario (root `/tmp/root`, `typeFilter=file`, predicate
matching `x.txt`, `maxDepth=5`), examining the root — a directory, hence
no match under the `file` filter — prints the lines `/tmp/root`, `1`,
`2` (the unconditional path print of lines 124-126 and the two literal
debug prints of lines 147-149 and 155-157), and examining the matching
file prints its path twice: once unconditionally and once as the match,
so `/tmp/root/a/x.txt` cannot appear exactly once overall. -/
theorem fff_stdout_not_only_matches :
    (examine_place fs1IsDir fs1Children predXtxt search_types.file 0 5
      ⟨"/tmp/root", 0⟩ [] ["/tmp/root"]).out = ["/tmp/root", "1", "2"] ∧
    (examine_place fs1IsDir fs1Children predXtxt search_types.file 0 5
      ⟨"/tmp/root/a/x.txt", 2⟩ []
      ["/tmp/root", "/tmp/root/a", "/tmp/root/a/x.txt"]).out
      = ["/tmp/root/a/x.txt", "1", "2", "/tmp/root/a/x.txt"] := by
  constructor <;> decide

/-- C2: when both `-regex` and `-iname` are supplied, the selection loop
(lines 288-316) assigns the pattern once per present option in the order
`-regex`, `-iregex`, `-name`, `-iname`, so the **last** present option
wins: the search uses the `-iname` pattern, not the `-regex` one. -/
theorem select_pattern_last_option_wins :
    select_pattern ⟨some "R", none, none, some "N"⟩
      = compiled_pattern.fromIname "^N$" ∧
    select_pattern ⟨some "R", none, none, some "N"⟩
      ≠ compiled_pattern.fromRegex "R" := by
  constructor <;> decide

/-- C7: supplying the same root twice pushes the same key onto the places
queue twice.  The seeding loop of `main` (lines 373-378) enqueues every
remaining argument unconditionally — there is no membership check against
`searched` before the push — so the input `["r", "r"]` makes the key `r`
enter the queue twice (and be examined twice). -/
theorem seed_roots_pushes_duplicate :
    (seed_roots ["r", "r"] [] []).1 = [⟨"r", 0⟩, ⟨"r", 0⟩] ∧
    (seed_roots ["r", "r"] [] []).1.count ⟨"r", 0⟩ = 2 := by
  constructor <;> decide

/-- The filesystem of C8's scenario: root directory `r` containing the
top-level file `r/x`. -/
def fs2IsDir : String → Bool := fun s => if s = "r" then true else false

/-- Directory listing of C8's scenario. -/
def fs2Children : String → List String :=
  fun s => if s = "r" then ["r/x"] else []

/-- A compiled predicate matching exactly the name `x`. -/
def predX : String → Bool := fun s => if s = "x" then true else false

/-- C8 counterexample: with `minDepth = 1`, the top-level file `r/x` —
which sits at depth `1`, not depth `0` — fails the `depth < min_depth`
early return (line 153) and **is** emitted as a match (the second `r/x`
line, printed by lines 168-172), contradicting the claim that
`minDepth=1` suppresses it. -/
theorem fff_min_depth_one_still_matches :
    (examine_place fs2IsDir fs2Children predX search_types.any 1 5
      ⟨"r/x", 1⟩ [] ["r", "r/x"]).out = ["r/x", "1", "2", "r/x"] := by
  decide

/-- C8 amended: items whose depth is strictly below `minDepth` produce no
match output — the examination returns right after the debug prints, so
its standard output is exactly the unconditional path line and `1`.  A
top-level file of a root has depth `1`, so suppressing it takes
`minDepth = 2` (witnessed separately), not `minDepth = 1`. -/
theorem fff_below_min_depth_no_match (isDir : String → Bool)
    (children : String → List String) (pattern : String → Bool)
    (search_type : search_types) (min_depth max_depth : Nat) (p : place)
    (q : List place) (s : List String) (h : p.depth < min_depth) :
    (examine_place isDir children pattern search_type min_depth max_depth
      p q s).out = [p.path, "1"] := by
  unfold examine_place
  simp only [if_pos h]

/-- Witness for C8's amended theorem: with `minDepth = 2` the depth-1
file `r/x` produces no match line even though it matches the predicate
and the type filter. -/
theorem fff_below_min_depth_no_match_witness :
    (1 : Nat) < 2 ∧
    (examine_place fs2IsDir fs2Children predX search_types.any 2 5
      ⟨"r/x", 1⟩ [] ["r", "r/x"]).out = ["r/x", "1"] :=
  ⟨by decide,
    fff_below_min_depth_no_match fs2IsDir fs2Children predX
      search_types.any 2 5 ⟨"r/x", 1⟩ [] ["r", "r/x"] (by decide)⟩
